import Mathlib

/-!
Verification of the Scale API python client (`scaleapi/__init__.py`).

The client is embedded shallowly: JSON values are an inductive type, the
network is a pure oracle `Http : Request → HttpResponse`, and each client
operation returns the list of HTTP requests it issued together with an
`Except PyErr` result, where `PyErr` models the Python exceptions the code
can raise (`ScaleInvalidRequest`, `ScaleException`, `KeyError`,
`TypeError`, `ValueError`).
-/

/-- JSON values, as produced by `response.json()`. -/
inductive Json where
  | null : Json
  | bool : Bool → Json
  | num : Int → Json
  | str : String → Json
  | arr : List Json → Json
  | obj : List (String × Json) → Json
deriving Repr

/-- Python exceptions that the client code can raise. `scaleInvalidRequest`
and `scaleException` carry the message and the errcode stored by
`ScaleException.__init__` (errcode is `None` for local validation errors);
`keyError` models `dict[k]` on a missing key, `typeError` subscripting or
iterating a non-container, `valueError` models `r.json()` on a body that is
not valid JSON. -/
inductive PyErr where
  | scaleInvalidRequest : String → Option Nat → PyErr
  | scaleException : String → Option Nat → PyErr
  | keyError : String → PyErr
  | typeError : String → PyErr
  | valueError : String → PyErr
deriving Repr

/-- The formatted exception string built by `ScaleException.__init__`:
`'<Response [errcode]> message'`. -/
def scaleExceptionStr (message : String) (errcode : Option Nat) : String :=
  "<Response [" ++ (match errcode with
    | none => "None"
    | some n => toString n) ++ "]> " ++ message

/-- HTTP method of a request issued by the client. -/
inductive Method where
  | get : Method
  | post : Method
deriving Repr

/-- An HTTP request as issued by `_getrequest` / `_postrequest`:
endpoint path (relative to SCALE_ENDPOINT), query params (GET) and JSON
payload (POST). -/
structure Request where
  method : Method
  endpoint : String
  params : List (String × Json)
  payload : List (String × Json)
deriving Repr

/-- An HTTP response: status code, raw text, and the result of `r.json()`
(`none` when the body is not valid JSON). -/
structure HttpResponse where
  status_code : Nat
  text : String
  jsonBody : Option Json
deriving Repr

/-- The network, as a pure oracle. -/
def Http : Type := Request → HttpResponse

/-- `r.json()` as used on a 200 response: raises ValueError when the body is
not valid JSON. -/
def HttpResponse.pyJson (r : HttpResponse) : Except PyErr Json :=
  match r.jsonBody with
  | some j => Except.ok j
  | none => Except.error (PyErr.valueError "No JSON object could be decoded")

/-- Python `d[k]` on a JSON value: keyError on a missing key of a dict,
typeError when the value is not a dict. -/
def Json.index (j : Json) (k : String) : Except PyErr Json :=
  match j with
  | Json.obj fields =>
    match fields.lookup k with
    | some v => Except.ok v
    | none => Except.error (PyErr.keyError k)
  | _ => Except.error (PyErr.typeError "object is not subscriptable")

/-- Python `d.get(k)` on a dict: the value, or None when absent. -/
def Json.get (j : Json) (k : String) : Json :=
  match j with
  | Json.obj fields => (fields.lookup k).getD Json.null
  | _ => Json.null

/-- Python `list(x)` as used by a list comprehension over `x`: the elements
when `x` is a JSON array, typeError otherwise. -/
def Json.asList (j : Json) : Except PyErr (List Json) :=
  match j with
  | Json.arr elems => Except.ok elems
  | _ => Except.error (PyErr.typeError "object is not iterable")

/-- The message extraction shared by `_getrequest` and `_postrequest` on a
non-200 response: `r.json()['error']`, falling back to `r.text` when the
body is not valid JSON (only ValueError is caught by the `except`). -/
def extractErrorMsg (r : HttpResponse) : Except PyErr String :=
  match r.jsonBody with
  | none => Except.ok r.text
  | some j =>
    match j.index "error" with
    | Except.ok (Json.str s) => Except.ok s
    | Except.ok v => Except.ok (reprStr v)
    | Except.error e => Except.error e

/-- The 16 entries of `TASK_TYPES`. -/
def TASK_TYPES : List String :=
  ["annotation", "audiotranscription", "categorization", "comparison",
   "cuboidannotation", "datacollection", "imageannotation", "lineannotation",
   "namedentityrecognition", "pointannotation", "polygonannotation",
   "segmentannotation", "transcription", "videoannotation",
   "videoboxannotation", "videocuboidannotation"]

/-- A `ScaleTask` wrapper: holds the JSON document the server returned
(`tasks.py` stores it as `param_dict`). -/
structure ScaleTask where
  param_dict : Json
deriving Repr

/-- A `Batch` wrapper: holds the JSON document the server returned. -/
structure Batch where
  param_dict : Json
deriving Repr

/-- `Paginator.__init__`: stores the docs and the raw response fields. The
python class also subclasses `list` initialised with `docs`. -/
structure Paginator (α : Type) where
  docs : List α
  total : Json
  limit : Json
  offset : Json
  has_more : Json
  next_token : Json
deriving Repr

/-- `Tasklist(Paginator)`. -/
def Tasklist : Type := Paginator ScaleTask

/-- `Batchlist(Paginator)`. -/
def Batchlist : Type := Paginator Batch

namespace ScaleClient

/-- The response handling duplicated verbatim in `_getrequest` and
`_postrequest`: on 200 return `r.json()`, on 400 raise
`ScaleInvalidRequest(error, r.status_code)`, on any other status raise
`ScaleException(error, r.status_code)`, with `error` extracted by
`extractErrorMsg`. -/
def handleResponse (r : HttpResponse) : Except PyErr Json :=
  if r.status_code = 200 then r.pyJson
  else
    match extractErrorMsg r with
    | Except.error e => Except.error e
    | Except.ok error =>
      if r.status_code = 400 then
        Except.error (PyErr.scaleInvalidRequest error (some r.status_code))
      else
        Except.error (PyErr.scaleException error (some r.status_code))

/-- `ScaleClient._getrequest`: issues one GET and applies `handleResponse`. -/
def getrequest (http : Http) (endpoint : String) (params : List (String × Json)) :
    List Request × Except PyErr Json :=
  let req : Request := ⟨Method.get, endpoint, params, []⟩
  ([req], handleResponse (http req))

/-- `ScaleClient._postrequest`: issues one POST and applies `handleResponse`. -/
def postrequest (http : Http) (endpoint : String) (payload : List (String × Json)) :
    List Request × Except PyErr Json :=
  let req : Request := ⟨Method.post, endpoint, [], payload⟩
  ([req], handleResponse (http req))

/-- `ScaleClient.fetch_task`: GET `task/<id>`, wrap the document in a ScaleTask. -/
def fetch_task (http : Http) (task_id : String) : List Request × Except PyErr ScaleTask :=
  let (reqs, res) := getrequest http ("task/" ++ task_id) []
  (reqs, res.map ScaleTask.mk)

/-- `ScaleClient.cancel_task`: POST `task/<id>/cancel`, wrap the document. -/
def cancel_task (http : Http) (task_id : String) : List Request × Except PyErr ScaleTask :=
  let (reqs, res) := postrequest http ("task/" ++ task_id ++ "/cancel") []
  (reqs, res.map ScaleTask.mk)

/-- The `allowed_kwargs` set of `ScaleClient.tasks`. -/
def allowed_kwargs_tasks : List String :=
  ["start_time", "end_time", "status", "type", "project",
   "batch", "limit", "offset", "completed_before", "completed_after",
   "next_token", "customer_review_status", "updated_before", "updated_after"]

/-- The `allowed_kwargs` set of `ScaleClient.list_batches`. -/
def allowed_kwargs_batches : List String :=
  ["start_time", "end_time", "status", "project", "batch", "limit", "offset"]

/-- The `for key in kwargs` validation loop: the first key not in the
allowed set, in iteration order, or `none` when all keys are allowed. -/
def firstIllegal (allowed : List String) : List (String × Json) → Option String
  | [] => none
  | (k, _) :: rest =>
    if allowed.contains k then firstIllegal allowed rest else some k

/-- Parsing of a listing response shared by `tasks` and `list_batches`:
`response['docs']`, then the `Paginator` constructor arguments in Python
evaluation order (`total`, `limit`, `offset`, `has_more`,
`response.get('next_token')`). -/
def buildPaginator (α : Type) (wrap : Json → α) (response : Json) :
    Except PyErr (Paginator α) := do
  let docsJson ← response.index "docs"
  let docsList ← docsJson.asList
  let docs := docsList.map wrap
  let total ← response.index "total"
  let limit ← response.index "limit"
  let offset ← response.index "offset"
  let has_more ← response.index "has_more"
  let next_token := response.get "next_token"
  Except.ok ⟨docs, total, limit, offset, has_more, next_token⟩

/-- `ScaleClient.tasks`: validates kwargs against `allowed_kwargs_tasks`
(raising `ScaleInvalidRequest(msg, None)` before any request), then GETs
`tasks` and builds a `Tasklist`. -/
def tasks (http : Http) (kwargs : List (String × Json)) :
    List Request × Except PyErr Tasklist :=
  match firstIllegal allowed_kwargs_tasks kwargs with
  | some key =>
    ([], Except.error (PyErr.scaleInvalidRequest
      ("Illegal parameter " ++ key ++ " for ScaleClient.tasks()") none))
  | none =>
    let (reqs, res) := getrequest http "tasks" kwargs
    (reqs, res.bind (buildPaginator ScaleTask ScaleTask.mk))

/-- `ScaleClient.list_batches`: validates kwargs against
`allowed_kwargs_batches` (same local error, same message template), then
GETs the `tasks` endpoint (as the source does) and builds a `Batchlist`. -/
def list_batches (http : Http) (kwargs : List (String × Json)) :
    List Request × Except PyErr Batchlist :=
  match firstIllegal allowed_kwargs_batches kwargs with
  | some key =>
    ([], Except.error (PyErr.scaleInvalidRequest
      ("Illegal parameter " ++ key ++ " for ScaleClient.tasks()") none))
  | none =>
    let (reqs, res) := getrequest http "tasks" kwargs
    (reqs, res.bind (buildPaginator Batch Batch.mk))

/-- `ScaleClient.create_task`: POST `task/<task_type>` with the kwargs as
payload, wrap the document in a ScaleTask. -/
def create_task (http : Http) (task_type : String) (kwargs : List (String × Json)) :
    List Request × Except PyErr ScaleTask :=
  let (reqs, res) := postrequest http ("task/" ++ task_type) kwargs
  (reqs, res.map ScaleTask.mk)

/-- `ScaleClient.create_batch`: POST `batches` with payload
`{project, name, callback}`, wrap the document in a Batch. -/
def create_batch (http : Http) (project batch_name callback : Json) :
    List Request × Except PyErr Batch :=
  let payload := [("project", project), ("name", batch_name), ("callback", callback)]
  let (reqs, res) := postrequest http "batches" payload
  (reqs, res.map Batch.mk)

/-- `ScaleClient.get_batch`: GET `batches/<name>`, wrap the document. -/
def get_batch (http : Http) (batch_name : String) : List Request × Except PyErr Batch :=
  let (reqs, res) := getrequest http ("batches/" ++ batch_name) []
  (reqs, res.map Batch.mk)

end ScaleClient

/-- `_AddTaskTypeCreator`'s `create_task_wrapper`: forwards to
`create_task` with the task type pre-filled. -/
def create_task_wrapper (task_type : String) (http : Http)
    (kwargs : List (String × Json)) : List Request × Except PyErr ScaleTask :=
  ScaleClient.create_task http task_type kwargs

/-- `ScaleClient.create_annotation_task`, installed by the
`for taskType in TASK_TYPES` loop. -/
def ScaleClient.create_annotation_task : Http → List (String × Json) → List Request × Except PyErr ScaleTask :=
  create_task_wrapper "annotation"

/-- `ScaleClient.create_audiotranscription_task`. -/
def ScaleClient.create_audiotranscription_task : Http → List (String × Json) → List Request × Except PyErr ScaleTask :=
  create_task_wrapper "audiotranscription"

/-- `ScaleClient.create_categorization_task`. -/
def ScaleClient.create_categorization_task : Http → List (String × Json) → List Request × Except PyErr ScaleTask :=
  create_task_wrapper "categorization"

/-- `ScaleClient.create_comparison_task`. -/
def ScaleClient.create_comparison_task : Http → List (String × Json) → List Request × Except PyErr ScaleTask :=
  create_task_wrapper "comparison"

/-- `ScaleClient.create_cuboidannotation_task`. -/
def ScaleClient.create_cuboidannotation_task : Http → List (String × Json) → List Request × Except PyErr ScaleTask :=
  create_task_wrapper "cuboidannotation"

/-- `ScaleClient.create_datacollection_task`. -/
def ScaleClient.create_datacollection_task : Http → List (String × Json) → List Request × Except PyErr ScaleTask :=
  create_task_wrapper "datacollection"

/-- `ScaleClient.create_imageannotation_task`. -/
def ScaleClient.create_imageannotation_task : Http → List (String × Json) → List Request × Except PyErr ScaleTask :=
  create_task_wrapper "imageannotation"

/-- `ScaleClient.create_lineannotation_task`. -/
def ScaleClient.create_lineannotation_task : Http → List (String × Json) → List Request × Except PyErr ScaleTask :=
  create_task_wrapper "lineannotation"

/-- `ScaleClient.create_namedentityrecognition_task`. -/
def ScaleClient.create_namedentityrecognition_task : Http → List (String × Json) → List Request × Except PyErr ScaleTask :=
  create_task_wrapper "namedentityrecognition"

/-- `ScaleClient.create_pointannotation_task`. -/
def ScaleClient.create_pointannotation_task : Http → List (String × Json) → List Request × Except PyErr ScaleTask :=
  create_task_wrapper "pointannotation"

/-- `ScaleClient.create_polygonannotation_task`. -/
def ScaleClient.create_polygonannotation_task : Http → List (String × Json) → List Request × Except PyErr ScaleTask :=
  create_task_wrapper "polygonannotation"

/-- `ScaleClient.create_segmentannotation_task`. -/
def ScaleClient.create_segmentannotation_task : Http → List (String × Json) → List Request × Except PyErr ScaleTask :=
  create_task_wrapper "segmentannotation"

/-- `ScaleClient.create_transcription_task`. -/
def ScaleClient.create_transcription_task : Http → List (String × Json) → List Request × Except PyErr ScaleTask :=
  create_task_wrapper "transcription"

/-- `ScaleClient.create_videoannotation_task`. -/
def ScaleClient.create_videoannotation_task : Http → List (String × Json) → List Request × Except PyErr ScaleTask :=
  create_task_wrapper "videoannotation"

/-- `ScaleClient.create_videoboxannotation_task`. -/
def ScaleClient.create_videoboxannotation_task : Http → List (String × Json) → List Request × Except PyErr ScaleTask :=
  create_task_wrapper "videoboxannotation"

/-- `ScaleClient.create_videocuboidannotation_task`. -/
def ScaleClient.create_videocuboidannotation_task : Http → List (String × Json) → List Request × Except PyErr ScaleTask :=
  create_task_wrapper "videocuboidannotation"

/-- The Python class hierarchy of the exception types defined by (or used
by) the client: `ScaleException(Exception)` and
`ScaleInvalidRequest(ScaleException, ValueError)`; `ValueError` is a
built-in subclass of `Exception`. -/
inductive PyClass where
  | exception : PyClass
  | valueError : PyClass
  | scaleException : PyClass
  | scaleInvalidRequest : PyClass
deriving DecidableEq, Repr

/-- Direct base classes, as declared in the source (and in the Python
builtins for `ValueError`). -/
def directBases : PyClass → List PyClass
  | PyClass.exception => []
  | PyClass.valueError => [PyClass.exception]
  | PyClass.scaleException => [PyClass.exception]
  | PyClass.scaleInvalidRequest => [PyClass.scaleException, PyClass.valueError]

/-- `issubclass`: reflexive-transitive closure of `directBases` (the class
lattice here is finite and acyclic; depth 3 suffices). -/
def isSubclass : Nat → PyClass → PyClass → Bool
  | 0, c, d => c = d
  | n + 1, c, d => c = d || (directBases c).any (fun b => isSubclass n b d)

/-! ## Helper lemmas -/

/-- An oracle that answers every request with an empty 200 JSON object. -/
def httpOkEmpty : Http := fun _ => ⟨200, "", some (Json.obj [])⟩

theorem firstIllegal_some (allowed : List String) :
    ∀ (kwargs : List (String × Json)),
      (∃ kv ∈ kwargs, ¬ allowed.contains kv.1) →
      ∃ k, ScaleClient.firstIllegal allowed kwargs = some k
  | [], h => absurd h (by simp)
  | (k, v) :: rest, h => by
    by_cases hk : allowed.contains k
    · have hrest : ∃ kv ∈ rest, ¬ allowed.contains kv.1 := by
        obtain ⟨w, hw, hc⟩ := h
        rcases List.mem_cons.mp hw with heq | hmem
        · subst heq; exact absurd hk hc
        · exact ⟨w, hmem, hc⟩
      obtain ⟨k2, hk2⟩ := firstIllegal_some allowed rest hrest
      exact ⟨k2, by simp only [ScaleClient.firstIllegal, if_pos hk]; exact hk2⟩
    · exact ⟨k, by simp only [ScaleClient.firstIllegal, if_neg hk]⟩

theorem Json.index_error_shape (j : Json) (k : String) (e : PyErr)
    (h : j.index k = Except.error e) :
    e = PyErr.keyError k ∨ e = PyErr.typeError "object is not subscriptable" := by
  unfold Json.index at h
  split at h
  · split at h <;> simp_all
  · simp_all

theorem extractErrorMsg_error_shape (r : HttpResponse) (e : PyErr)
    (h : extractErrorMsg r = Except.error e) :
    e = PyErr.keyError "error" ∨ e = PyErr.typeError "object is not subscriptable" := by
  cases hb : r.jsonBody with
  | none => simp [extractErrorMsg, hb] at h
  | some j =>
    cases hE : j.index "error" with
    | ok v => cases v <;> simp [extractErrorMsg, hb, hE] at h
    | error e2 =>
      simp only [extractErrorMsg, hb] at h
      rw [hE] at h
      have h2 : e2 = e := by simpa using h
      subst h2
      exact Json.index_error_shape j "error" e2 hE

/-- Every `ScaleInvalidRequest` raised remotely (by the response handler)
carries errcode 400. -/
theorem handleResponse_invalid_request_code (r : HttpResponse) (m : String) (c : Option Nat)
    (h : ScaleClient.handleResponse r = Except.error (PyErr.scaleInvalidRequest m c)) :
    c = some 400 := by
  by_cases h200 : r.status_code = 200
  · simp only [ScaleClient.handleResponse, if_pos h200, HttpResponse.pyJson] at h
    cases hb : r.jsonBody <;> simp [hb] at h
  · simp only [ScaleClient.handleResponse, if_neg h200] at h
    cases hE : extractErrorMsg r with
    | error e =>
      rw [hE] at h
      rcases extractErrorMsg_error_shape r e hE with he | he <;> subst he <;> simp_all
    | ok msg =>
      rw [hE] at h
      by_cases h400 : r.status_code = 400
      · simp only [if_pos h400, h400] at h
        simp at h
        exact h.2.symm
      · simp [if_neg h400] at h

/-! ## Claim theorems -/

/-- C1: For every option key not in the allowed set of the listing call,
`tasks` and `list_batches` raise `ScaleInvalidRequest` and perform zero
network requests (the check runs before any HTTP call). -/
theorem illegal_key_raises_before_request (http : Http) (kwargs : List (String × Json)) :
    ((∃ kv ∈ kwargs, ¬ ScaleClient.allowed_kwargs_tasks.contains kv.1) →
      (ScaleClient.tasks http kwargs).1 = [] ∧
      ∃ m, (ScaleClient.tasks http kwargs).2 =
        Except.error (PyErr.scaleInvalidRequest m none)) ∧
    ((∃ kv ∈ kwargs, ¬ ScaleClient.allowed_kwargs_batches.contains kv.1) →
      (ScaleClient.list_batches http kwargs).1 = [] ∧
      ∃ m, (ScaleClient.list_batches http kwargs).2 =
        Except.error (PyErr.scaleInvalidRequest m none)) := by
  constructor
  · intro h
    obtain ⟨key, hkey⟩ := firstIllegal_some ScaleClient.allowed_kwargs_tasks kwargs h
    refine ⟨?_, "Illegal parameter " ++ key ++ " for ScaleClient.tasks()", ?_⟩ <;>
      simp [ScaleClient.tasks, hkey]
  · intro h
    obtain ⟨key, hkey⟩ := firstIllegal_some ScaleClient.allowed_kwargs_batches kwargs h
    refine ⟨?_, "Illegal parameter " ++ key ++ " for ScaleClient.tasks()", ?_⟩ <;>
      simp [ScaleClient.list_batches, hkey]

theorem illegal_key_raises_before_request_witness :
    ((ScaleClient.tasks httpOkEmpty [("bogus", Json.null)]).1 = [] ∧
      ∃ m, (ScaleClient.tasks httpOkEmpty [("bogus", Json.null)]).2 =
        Except.error (PyErr.scaleInvalidRequest m none)) ∧
    ((ScaleClient.list_batches httpOkEmpty [("bogus", Json.null)]).1 = [] ∧
      ∃ m, (ScaleClient.list_batches httpOkEmpty [("bogus", Json.null)]).2 =
        Except.error (PyErr.scaleInvalidRequest m none)) := by
  have h := illegal_key_raises_before_request httpOkEmpty [("bogus", Json.null)]
  exact ⟨h.1 ⟨("bogus", Json.null), by simp, by decide⟩,
         h.2 ⟨("bogus", Json.null), by simp, by decide⟩⟩

/-- C8: A locally raised `ScaleInvalidRequest` (illegal option key) carries
errcode `None`, while every remotely raised one carries the numeric status
400. -/
theorem illegal_key_errcode_is_none (http : Http) (kwargs : List (String × Json)) :
    ((∃ kv ∈ kwargs, ¬ ScaleClient.allowed_kwargs_tasks.contains kv.1) →
      ∃ m, (ScaleClient.tasks http kwargs).2 =
        Except.error (PyErr.scaleInvalidRequest m none)) ∧
    ((∃ kv ∈ kwargs, ¬ ScaleClient.allowed_kwargs_batches.contains kv.1) →
      ∃ m, (ScaleClient.list_batches http kwargs).2 =
        Except.error (PyErr.scaleInvalidRequest m none)) ∧
    (∀ (r : HttpResponse) (m : String) (c : Option Nat),
      ScaleClient.handleResponse r = Except.error (PyErr.scaleInvalidRequest m c) →
      c = some 400) := by
  refine ⟨?_, ?_, fun r m c h => handleResponse_invalid_request_code r m c h⟩
  · intro h
    obtain ⟨key, hkey⟩ := firstIllegal_some ScaleClient.allowed_kwargs_tasks kwargs h
    exact ⟨"Illegal parameter " ++ key ++ " for ScaleClient.tasks()",
      by simp [ScaleClient.tasks, hkey]⟩
  · intro h
    obtain ⟨key, hkey⟩ := firstIllegal_some ScaleClient.allowed_kwargs_batches kwargs h
    exact ⟨"Illegal parameter " ++ key ++ " for ScaleClient.tasks()",
      by simp [ScaleClient.list_batches, hkey]⟩

theorem illegal_key_errcode_is_none_witness :
    (∃ m, (ScaleClient.tasks httpOkEmpty [("bogus", Json.null)]).2 =
      Except.error (PyErr.scaleInvalidRequest m none)) ∧
    (∃ m, (ScaleClient.list_batches httpOkEmpty [("bogus", Json.null)]).2 =
      Except.error (PyErr.scaleInvalidRequest m none)) ∧
    (ScaleClient.handleResponse ⟨400, "", some (Json.obj [("error", Json.str "x")])⟩ =
      Except.error (PyErr.scaleInvalidRequest "x" (some 400)) →
      (some 400 : Option Nat) = some 400) := by
  have h := illegal_key_errcode_is_none httpOkEmpty [("bogus", Json.null)]
  exact ⟨h.1 ⟨("bogus", Json.null), by simp, by decide⟩,
         h.2.1 ⟨("bogus", Json.null), by simp, by decide⟩,
         fun hr => h.2.2 _ "x" (some 400) hr⟩

/-- C9: `ScaleInvalidRequest` is a subclass of `ScaleException`, of
`ValueError`, and hence of `Exception`: a handler for any of these catches
it. -/
theorem scale_invalid_request_subclasses :
    isSubclass 3 PyClass.scaleInvalidRequest PyClass.scaleException = true ∧
    isSubclass 3 PyClass.scaleInvalidRequest PyClass.valueError = true ∧
    isSubclass 3 PyClass.scaleInvalidRequest PyClass.exception = true := by
  decide

/-- C4: Every type-specific convenience creator is observably equivalent to
the generic `create_task` with the type pre-filled: same request list, same
result, same errors. -/
theorem create_type_task_forwards (http : Http) (kwargs : List (String × Json)) :
    (∀ T ∈ TASK_TYPES,
      create_task_wrapper T http kwargs = ScaleClient.create_task http T kwargs) ∧
    ScaleClient.create_annotation_task http kwargs =
      ScaleClient.create_task http "annotation" kwargs ∧
    ScaleClient.create_audiotranscription_task http kwargs =
      ScaleClient.create_task http "audiotranscription" kwargs ∧
    ScaleClient.create_categorization_task http kwargs =
      ScaleClient.create_task http "categorization" kwargs ∧
    ScaleClient.create_comparison_task http kwargs =
      ScaleClient.create_task http "comparison" kwargs ∧
    ScaleClient.create_cuboidannotation_task http kwargs =
      ScaleClient.create_task http "cuboidannotation" kwargs ∧
    ScaleClient.create_datacollection_task http kwargs =
      ScaleClient.create_task http "datacollection" kwargs ∧
    ScaleClient.create_imageannotation_task http kwargs =
      ScaleClient.create_task http "imageannotation" kwargs ∧
    ScaleClient.create_lineannotation_task http kwargs =
      ScaleClient.create_task http "lineannotation" kwargs ∧
    ScaleClient.create_namedentityrecognition_task http kwargs =
      ScaleClient.create_task http "namedentityrecognition" kwargs ∧
    ScaleClient.create_pointannotation_task http kwargs =
      ScaleClient.create_task http "pointannotation" kwargs ∧
    ScaleClient.create_polygonannotation_task http kwargs =
      ScaleClient.create_task http "polygonannotation" kwargs ∧
    ScaleClient.create_segmentannotation_task http kwargs =
      ScaleClient.create_task http "segmentannotation" kwargs ∧
    ScaleClient.create_transcription_task http kwargs =
      ScaleClient.create_task http "transcription" kwargs ∧
    ScaleClient.create_videoannotation_task http kwargs =
      ScaleClient.create_task http "videoannotation" kwargs ∧
    ScaleClient.create_videoboxannotation_task http kwargs =
      ScaleClient.create_task http "videoboxannotation" kwargs ∧
    ScaleClient.create_videocuboidannotation_task http kwargs =
      ScaleClient.create_task http "videocuboidannotation" kwargs :=
  ⟨fun _ _ => rfl, rfl, rfl, rfl, rfl, rfl, rfl, rfl, rfl, rfl, rfl, rfl, rfl,
   rfl, rfl, rfl, rfl⟩

theorem create_type_task_forwards_witness :
    create_task_wrapper "annotation" httpOkEmpty [] =
      ScaleClient.create_task httpOkEmpty "annotation" [] :=
  (create_type_task_forwards httpOkEmpty []).1 "annotation" (by decide)

/-- The response handler on a 400 response whose JSON body carries an
`error` string raises `ScaleInvalidRequest` with that string and code 400. -/
theorem handleResponse_400_json (r : HttpResponse) (fields : List (String × Json))
    (e : String) (h400 : r.status_code = 400) (hb : r.jsonBody = some (Json.obj fields))
    (he : fields.lookup "error" = some (Json.str e)) :
    ScaleClient.handleResponse r = Except.error (PyErr.scaleInvalidRequest e (some 400)) := by
  simp [ScaleClient.handleResponse, h400, extractErrorMsg, hb, Json.index, he]

/-- The response handler on a 400 response whose body is not valid JSON
raises `ScaleInvalidRequest` with the raw text and code 400. -/
theorem handleResponse_400_text (r : HttpResponse) (h400 : r.status_code = 400)
    (hb : r.jsonBody = none) :
    ScaleClient.handleResponse r =
      Except.error (PyErr.scaleInvalidRequest r.text (some 400)) := by
  simp [ScaleClient.handleResponse, h400, extractErrorMsg, hb]

/-- C2: An HTTP 400 response makes a GET or POST call raise
`ScaleInvalidRequest` with the JSON body's `error` field (or the raw text
when the body is not JSON) and code 400; in particular `fetch_task` on a
400 body `{status_code: 400, error: "bad field"}` raises
`ScaleInvalidRequest` with message "bad field". -/
theorem http400_raises_invalid_request (http : Http) (endpoint : String)
    (args : List (String × Json)) (task_id : String) (e : String)
    (fields : List (String × Json)) :
    ((http ⟨Method.get, endpoint, args, []⟩).status_code = 400 →
      ((http ⟨Method.get, endpoint, args, []⟩).jsonBody = some (Json.obj fields) →
        fields.lookup "error" = some (Json.str e) →
        (ScaleClient.getrequest http endpoint args).2 =
          Except.error (PyErr.scaleInvalidRequest e (some 400))) ∧
      ((http ⟨Method.get, endpoint, args, []⟩).jsonBody = none →
        (ScaleClient.getrequest http endpoint args).2 =
          Except.error (PyErr.scaleInvalidRequest
            (http ⟨Method.get, endpoint, args, []⟩).text (some 400)))) ∧
    ((http ⟨Method.post, endpoint, [], args⟩).status_code = 400 →
      ((http ⟨Method.post, endpoint, [], args⟩).jsonBody = some (Json.obj fields) →
        fields.lookup "error" = some (Json.str e) →
        (ScaleClient.postrequest http endpoint args).2 =
          Except.error (PyErr.scaleInvalidRequest e (some 400))) ∧
      ((http ⟨Method.post, endpoint, [], args⟩).jsonBody = none →
        (ScaleClient.postrequest http endpoint args).2 =
          Except.error (PyErr.scaleInvalidRequest
            (http ⟨Method.post, endpoint, [], args⟩).text (some 400)))) ∧
    (http ⟨Method.get, "task/" ++ task_id, [], []⟩ =
        ⟨400, "", some (Json.obj [("status_code", Json.num 400),
                                  ("error", Json.str "bad field")])⟩ →
      (ScaleClient.fetch_task http task_id).2 =
        Except.error (PyErr.scaleInvalidRequest "bad field" (some 400))) := by
  refine ⟨fun h400 => ⟨fun hb he => ?_, fun hb => ?_⟩,
          fun h400 => ⟨fun hb he => ?_, fun hb => ?_⟩,
          fun hresp => ?_⟩
  · exact handleResponse_400_json _ fields e h400 hb he
  · exact handleResponse_400_text _ h400 hb
  · exact handleResponse_400_json _ fields e h400 hb he
  · exact handleResponse_400_text _ h400 hb
  · show (ScaleClient.handleResponse
        (http ⟨Method.get, "task/" ++ task_id, [], []⟩)).map ScaleTask.mk = _
    rw [hresp]
    rfl

/-- The oracle of the simulated 400 response with JSON body
`{status_code: 400, error: "bad field"}`. -/
def http400 : Http := fun _ =>
  ⟨400, "", some (Json.obj [("status_code", Json.num 400),
                            ("error", Json.str "bad field")])⟩

/-- The oracle of a simulated 400 response with a non-JSON body. -/
def http400text : Http := fun _ => ⟨400, "oops", none⟩

theorem http400_raises_invalid_request_witness :
    (ScaleClient.getrequest http400 "tasks" []).2 =
      Except.error (PyErr.scaleInvalidRequest "bad field" (some 400)) ∧
    (ScaleClient.getrequest http400text "tasks" []).2 =
      Except.error (PyErr.scaleInvalidRequest "oops" (some 400)) ∧
    (ScaleClient.postrequest http400 "batches" []).2 =
      Except.error (PyErr.scaleInvalidRequest "bad field" (some 400)) ∧
    (ScaleClient.fetch_task http400 "t1").2 =
      Except.error (PyErr.scaleInvalidRequest "bad field" (some 400)) := by
  have h := http400_raises_invalid_request http400 "tasks" [] "t1" "bad field"
    [("status_code", Json.num 400), ("error", Json.str "bad field")]
  have h2 := http400_raises_invalid_request http400text "tasks" [] "t1" "bad field"
    [("status_code", Json.num 400), ("error", Json.str "bad field")]
  exact ⟨(h.1 rfl).1 rfl rfl, (h2.1 rfl).2 rfl, (h.2.1 rfl).1 rfl rfl, h.2.2 rfl⟩

/-- The response handler on a non-200 non-400 response whose JSON body has
an `error` string raises generic `ScaleException` with that string and the
status code. -/
theorem handleResponse_other_json (r : HttpResponse) (fields : List (String × Json))
    (e : String) (hne200 : r.status_code ≠ 200) (hne400 : r.status_code ≠ 400)
    (hb : r.jsonBody = some (Json.obj fields))
    (he : fields.lookup "error" = some (Json.str e)) :
    ScaleClient.handleResponse r =
      Except.error (PyErr.scaleException e (some r.status_code)) := by
  simp [ScaleClient.handleResponse, hne200, hne400, extractErrorMsg, hb, Json.index, he]

/-- The response handler on a non-200 non-400 response whose body is not
valid JSON raises generic `ScaleException` with the raw text. -/
theorem handleResponse_other_text (r : HttpResponse) (hne200 : r.status_code ≠ 200)
    (hne400 : r.status_code ≠ 400) (hb : r.jsonBody = none) :
    ScaleClient.handleResponse r =
      Except.error (PyErr.scaleException r.text (some r.status_code)) := by
  simp [ScaleClient.handleResponse, hne200, hne400, extractErrorMsg, hb]

/-- C3: Any non-200 non-400 response raises generic `ScaleException` (not
`ScaleInvalidRequest`) with the extracted message and status code; in
particular a 500 response with the non-JSON body "server exploded" makes
`cancel_task` raise `ScaleException` with exactly that raw text. -/
theorem non200_non400_raises_generic (http : Http) (task_id : String) (e : String)
    (fields : List (String × Json)) :
    (∀ r : HttpResponse, r.status_code ≠ 200 → r.status_code ≠ 400 →
      ((r.jsonBody = some (Json.obj fields) →
        fields.lookup "error" = some (Json.str e) →
        ScaleClient.handleResponse r =
          Except.error (PyErr.scaleException e (some r.status_code))) ∧
       (r.jsonBody = none →
        ScaleClient.handleResponse r =
          Except.error (PyErr.scaleException r.text (some r.status_code))))) ∧
    (http ⟨Method.post, "task/" ++ task_id ++ "/cancel", [], []⟩ =
        ⟨500, "server exploded", none⟩ →
      (ScaleClient.cancel_task http task_id).2 =
        Except.error (PyErr.scaleException "server exploded" (some 500))) := by
  refine ⟨fun r hne200 hne400 =>
    ⟨fun hb he => handleResponse_other_json r fields e hne200 hne400 hb he,
     fun hb => handleResponse_other_text r hne200 hne400 hb⟩,
    fun hresp => ?_⟩
  show (ScaleClient.handleResponse
      (http ⟨Method.post, "task/" ++ task_id ++ "/cancel", [], []⟩)).map ScaleTask.mk = _
  rw [hresp]
  rfl

/-- The oracle of the simulated 500 response with non-JSON body
"server exploded". -/
def http500 : Http := fun _ => ⟨500, "server exploded", none⟩

theorem non200_non400_raises_generic_witness :
    ScaleClient.handleResponse ⟨500, "server exploded", none⟩ =
      Except.error (PyErr.scaleException "server exploded" (some 500)) ∧
    (ScaleClient.cancel_task http500 "t1").2 =
      Except.error (PyErr.scaleException "server exploded" (some 500)) := by
  have h := non200_non400_raises_generic http500 "t1" "e" []
  exact ⟨(h.1 ⟨500, "server exploded", none⟩ (by decide) (by decide)).2 rfl, h.2 rfl⟩

/-- First document of the simulated listing responses. -/
def d1 : Json := Json.obj [("task_id", Json.str "t1")]

/-- Second document of the simulated listing responses. -/
def d2 : Json := Json.obj [("task_id", Json.str "t2")]

/-- Third document, used by the over-limit listing response. -/
def d3 : Json := Json.obj [("task_id", Json.str "t3")]

/-- Body fields of the simulated 200 listing response
`{docs: [d1, d2], total: 2, limit: 100, offset: 0, has_more: false}`. -/
def flds6 : List (String × Json) :=
  [("docs", Json.arr [d1, d2]), ("total", Json.num 2), ("limit", Json.num 100),
   ("offset", Json.num 0), ("has_more", Json.bool false)]

/-- The oracle serving that listing response. -/
def http6 : Http := fun _ => ⟨200, "", some (Json.obj flds6)⟩

/-- C6: On the 200 listing response `{docs: [d1, d2], total: 2, limit: 100,
offset: 0, has_more: false}`, `tasks` returns exactly two task wrappers in
server order, with total 2, has_more false and next_token None. -/
theorem tasks_two_docs_response :
    ScaleClient.tasks http6 [] =
      ([⟨Method.get, "tasks", [], []⟩],
       Except.ok (Paginator.mk [ScaleTask.mk d1, ScaleTask.mk d2] (Json.num 2)
         (Json.num 100) (Json.num 0) (Json.bool false) Json.null)) ∧
    ∃ t : Paginator ScaleTask,
      (ScaleClient.tasks http6 []).2 = Except.ok t ∧ t.docs.length = 2 := by
  exact ⟨rfl, ⟨_, rfl, rfl⟩⟩

/-- C7: `create_batch` issues exactly one POST to `batches` with payload
`{project, name, callback}` and on a 200 response returns a `Batch`
wrapping the response document. -/
theorem create_batch_request_shape (http : Http) (project batch_name callback : Json)
    (doc : Json) (txt : String) :
    (ScaleClient.create_batch http project batch_name callback).1 =
      [⟨Method.post, "batches", [],
        [("project", project), ("name", batch_name), ("callback", callback)]⟩] ∧
    (http ⟨Method.post, "batches", [],
        [("project", project), ("name", batch_name), ("callback", callback)]⟩ =
        ⟨200, txt, some doc⟩ →
      (ScaleClient.create_batch http project batch_name callback).2 =
        Except.ok (Batch.mk doc)) := by
  refine ⟨rfl, fun hresp => ?_⟩
  show (ScaleClient.handleResponse (http ⟨Method.post, "batches", [],
      [("project", project), ("name", batch_name), ("callback", callback)]⟩)).map Batch.mk = _
  rw [hresp]
  rfl

/-- The oracle of a simulated 200 batch-creation response. -/
def http200batch : Http := fun _ => ⟨200, "", some (Json.obj [("name", Json.str "b1")])⟩

theorem create_batch_request_shape_witness :
    (ScaleClient.create_batch http200batch (Json.str "p") (Json.str "b1")
        (Json.str "cb")).1 =
      [⟨Method.post, "batches", [],
        [("project", Json.str "p"), ("name", Json.str "b1"),
         ("callback", Json.str "cb")]⟩] ∧
    (ScaleClient.create_batch http200batch (Json.str "p") (Json.str "b1")
        (Json.str "cb")).2 =
      Except.ok (Batch.mk (Json.obj [("name", Json.str "b1")])) := by
  have h := create_batch_request_shape http200batch (Json.str "p") (Json.str "b1")
    (Json.str "cb") (Json.obj [("name", Json.str "b1")]) ""
  exact ⟨h.1, h.2 rfl⟩

/-- Body fields of a 200 listing response carrying three documents while
claiming `limit = 2`. -/
def flds5 : List (String × Json) :=
  [("docs", Json.arr [d1, d2, d3]), ("total", Json.num 3), ("limit", Json.num 2),
   ("offset", Json.num 0), ("has_more", Json.bool true)]

/-- The oracle serving that over-limit listing response. -/
def http5 : Http := fun _ => ⟨200, "", some (Json.obj flds5)⟩

/-- C5 (counterexample): the client does not enforce `len(docs) ≤ limit`:
on a server response carrying 3 documents and `limit = 2`, `tasks` happily
returns a Paginator with 3 docs and limit 2. -/
theorem paginator_limit_not_enforced :
    (ScaleClient.tasks http5 []).2 =
      Except.ok (Paginator.mk [ScaleTask.mk d1, ScaleTask.mk d2, ScaleTask.mk d3]
        (Json.num 3) (Json.num 2) (Json.num 0) (Json.bool true) Json.null) ∧
    ¬((Paginator.mk [ScaleTask.mk d1, ScaleTask.mk d2, ScaleTask.mk d3]
        (Json.num 3) (Json.num 2) (Json.num 0) (Json.bool true) Json.null :
        Paginator ScaleTask).docs.length ≤ 2) :=
  ⟨rfl, by decide⟩

/-- C5 (amended): the Paginator copies the server's listing fields
verbatim: the docs length equals the number of documents the server sent,
`has_more` equals the server's continuation flag, and `limit` is the
server's limit field (so `len(docs) ≤ limit` holds only when the server
itself respects it). -/
theorem paginator_fields_copied (http : Http) (kwargs : List (String × Json))
    (txt : String) (flds : List (String × Json)) (docsL : List Json)
    (tot lim off hm : Json)
    (hlegal : ScaleClient.firstIllegal ScaleClient.allowed_kwargs_tasks kwargs = none)
    (hresp : http ⟨Method.get, "tasks", kwargs, []⟩ = ⟨200, txt, some (Json.obj flds)⟩)
    (hdocs : flds.lookup "docs" = some (Json.arr docsL))
    (htot : flds.lookup "total" = some tot)
    (hlim : flds.lookup "limit" = some lim)
    (hoff : flds.lookup "offset" = some off)
    (hhm : flds.lookup "has_more" = some hm) :
    ∃ t : Paginator ScaleTask, (ScaleClient.tasks http kwargs).2 = Except.ok t ∧
      t.docs.length = docsL.length ∧ t.has_more = hm ∧ t.limit = lim ∧
      t.total = tot ∧ t.next_token = Json.get (Json.obj flds) "next_token" := by
  refine ⟨⟨docsL.map ScaleTask.mk, tot, lim, off, hm,
    Json.get (Json.obj flds) "next_token"⟩, ?_, by simp, rfl, rfl, rfl, rfl⟩
  simp [ScaleClient.tasks, hlegal, ScaleClient.getrequest, hresp,
        ScaleClient.handleResponse, HttpResponse.pyJson, ScaleClient.buildPaginator,
        Json.index, Json.asList, hdocs, htot, hlim, hoff, hhm,
        Bind.bind, Except.bind]

theorem paginator_fields_copied_witness :
    ∃ t : Paginator ScaleTask, (ScaleClient.tasks http5 []).2 = Except.ok t ∧
      t.docs.length = [d1, d2, d3].length ∧ t.has_more = Json.bool true ∧
      t.limit = Json.num 2 ∧ t.total = Json.num 3 ∧
      t.next_token = Json.get (Json.obj flds5) "next_token" :=
  paginator_fields_copied http5 [] "" flds5 [d1, d2, d3] (Json.num 3) (Json.num 2)
    (Json.num 0) (Json.bool true) rfl rfl rfl rfl rfl rfl rfl

/-- Under legal kwargs and a 200 JSON-object response, `tasks` returns
exactly `buildPaginator` applied to the response object. -/
theorem tasks_parse_eq (http : Http) (kwargs : List (String × Json))
    (txt : String) (flds : List (String × Json))
    (hlegal : ScaleClient.firstIllegal ScaleClient.allowed_kwargs_tasks kwargs = none)
    (hresp : http ⟨Method.get, "tasks", kwargs, []⟩ = ⟨200, txt, some (Json.obj flds)⟩) :
    (ScaleClient.tasks http kwargs).2 =
      ScaleClient.buildPaginator ScaleTask ScaleTask.mk (Json.obj flds) := by
  simp [ScaleClient.tasks, hlegal, ScaleClient.getrequest, hresp,
        ScaleClient.handleResponse, HttpResponse.pyJson, Bind.bind, Except.bind]

/-- Same for `list_batches` (which also GETs the `tasks` endpoint). -/
theorem list_batches_parse_eq (http : Http) (kwargs : List (String × Json))
    (txt : String) (flds : List (String × Json))
    (hlegal : ScaleClient.firstIllegal ScaleClient.allowed_kwargs_batches kwargs = none)
    (hresp : http ⟨Method.get, "tasks", kwargs, []⟩ = ⟨200, txt, some (Json.obj flds)⟩) :
    (ScaleClient.list_batches http kwargs).2 =
      ScaleClient.buildPaginator Batch Batch.mk (Json.obj flds) := by
  simp [ScaleClient.list_batches, hlegal, ScaleClient.getrequest, hresp,
        ScaleClient.handleResponse, HttpResponse.pyJson, Bind.bind, Except.bind]

/-- C10: In a 200 listing response only `next_token` is optional: a missing
`docs`, `total`, `limit`, `offset` or `has_more` makes `tasks` and
`list_batches` fail with a raw `KeyError` (not `ScaleInvalidRequest`, not
`ScaleException`), while a missing `next_token` yields `None`. -/
theorem listing_only_next_token_optional (http : Http) (kwargs : List (String × Json))
    (txt : String) (flds : List (String × Json))
    (hlegalT : ScaleClient.firstIllegal ScaleClient.allowed_kwargs_tasks kwargs = none)
    (hlegalB : ScaleClient.firstIllegal ScaleClient.allowed_kwargs_batches kwargs = none)
    (hresp : http ⟨Method.get, "tasks", kwargs, []⟩ = ⟨200, txt, some (Json.obj flds)⟩) :
    (flds.lookup "docs" = none →
      (ScaleClient.tasks http kwargs).2 = Except.error (PyErr.keyError "docs") ∧
      (ScaleClient.list_batches http kwargs).2 = Except.error (PyErr.keyError "docs")) ∧
    (∀ docsL, flds.lookup "docs" = some (Json.arr docsL) →
      flds.lookup "total" = none →
      (ScaleClient.tasks http kwargs).2 = Except.error (PyErr.keyError "total") ∧
      (ScaleClient.list_batches http kwargs).2 = Except.error (PyErr.keyError "total")) ∧
    (∀ docsL tot, flds.lookup "docs" = some (Json.arr docsL) →
      flds.lookup "total" = some tot → flds.lookup "limit" = none →
      (ScaleClient.tasks http kwargs).2 = Except.error (PyErr.keyError "limit") ∧
      (ScaleClient.list_batches http kwargs).2 = Except.error (PyErr.keyError "limit")) ∧
    (∀ docsL tot lim, flds.lookup "docs" = some (Json.arr docsL) →
      flds.lookup "total" = some tot → flds.lookup "limit" = some lim →
      flds.lookup "offset" = none →
      (ScaleClient.tasks http kwargs).2 = Except.error (PyErr.keyError "offset") ∧
      (ScaleClient.list_batches http kwargs).2 = Except.error (PyErr.keyError "offset")) ∧
    (∀ docsL tot lim off, flds.lookup "docs" = some (Json.arr docsL) →
      flds.lookup "total" = some tot → flds.lookup "limit" = some lim →
      flds.lookup "offset" = some off → flds.lookup "has_more" = none →
      (ScaleClient.tasks http kwargs).2 = Except.error (PyErr.keyError "has_more") ∧
      (ScaleClient.list_batches http kwargs).2 = Except.error (PyErr.keyError "has_more")) ∧
    (∀ docsL tot lim off hm, flds.lookup "docs" = some (Json.arr docsL) →
      flds.lookup "total" = some tot → flds.lookup "limit" = some lim →
      flds.lookup "offset" = some off → flds.lookup "has_more" = some hm →
      flds.lookup "next_token" = none →
      (ScaleClient.tasks http kwargs).2 =
        Except.ok (Paginator.mk (docsL.map ScaleTask.mk) tot lim off hm Json.null) ∧
      (ScaleClient.list_batches http kwargs).2 =
        Except.ok (Paginator.mk (docsL.map Batch.mk) tot lim off hm Json.null)) := by
  have hT := tasks_parse_eq http kwargs txt flds hlegalT hresp
  have hB := list_batches_parse_eq http kwargs txt flds hlegalB hresp
  refine ⟨fun h1 => ?_, fun docsL h1 h2 => ?_, fun docsL tot h1 h2 h3 => ?_,
          fun docsL tot lim h1 h2 h3 h4 => ?_,
          fun docsL tot lim off h1 h2 h3 h4 h5 => ?_,
          fun docsL tot lim off hm h1 h2 h3 h4 h5 h6 => ?_⟩
  all_goals rw [hT, hB]
  all_goals constructor <;>
    simp [ScaleClient.buildPaginator, Json.index, Json.asList, Json.get,
          Bind.bind, Except.bind, *]

theorem listing_only_next_token_optional_witness :
    ((ScaleClient.tasks httpOkEmpty []).2 = Except.error (PyErr.keyError "docs") ∧
     (ScaleClient.list_batches httpOkEmpty []).2 = Except.error (PyErr.keyError "docs")) ∧
    ((ScaleClient.tasks http6 []).2 =
       Except.ok (Paginator.mk [ScaleTask.mk d1, ScaleTask.mk d2] (Json.num 2)
         (Json.num 100) (Json.num 0) (Json.bool false) Json.null) ∧
     (ScaleClient.list_batches http6 []).2 =
       Except.ok (Paginator.mk [Batch.mk d1, Batch.mk d2] (Json.num 2)
         (Json.num 100) (Json.num 0) (Json.bool false) Json.null)) := by
  have h0 := listing_only_next_token_optional httpOkEmpty [] "" [] rfl rfl rfl
  have h6 := listing_only_next_token_optional http6 [] "" flds6 rfl rfl rfl
  exact ⟨h0.1 rfl, h6.2.2.2.2.2 [d1, d2] (Json.num 2) (Json.num 100) (Json.num 0)
    (Json.bool false) rfl rfl rfl rfl rfl rfl⟩
